import Mathlib

/-!
Verification development for a minimal winit/wgpu/egui rendering shell
(`src/main.rs`).  The engine state, its operations (`new`, `resize`, `input`,
`draw_ui`, `update`, `render`) and the `main` event-loop dispatch are embedded
as pure Lean functions; GPU, windowing and UI-library collaborators appear as
explicit inputs/outputs (acquisition results, action traces).  The helper
crates `egui_winit` / `egui_wgpu` are part of the repository but their sources
are not available, so they are modelled from the specification (each such
definition is marked `Modelled from the spec:`).
-/

set_option autoImplicit false
set_option linter.unusedVariables false

namespace EguiDemo

/-- The `winit::dpi::PhysicalSize<u32>`: window size in physical pixels. -/
structure PhysicalSize where
  width : Nat
  height : Nat
deriving DecidableEq, Repr

/-- The `wgpu::TextureFormat` (the variants relevant to this program). -/
inductive TextureFormat where
  | Bgra8UnormSrgb
  | Rgba8UnormSrgb
deriving DecidableEq, Repr

/-- The `wgpu::PresentMode`. -/
inductive PresentMode where
  | Immediate
  | Mailbox
  | Fifo
deriving DecidableEq, Repr

/-- The `wgpu::TextureUsage` bit flags, as a natural number. -/
abbrev TextureUsage := Nat

/-- The `wgpu::TextureUsage::OUTPUT_ATTACHMENT` (bit 0x10 in the wgpu 0.6 API). -/
def TextureUsage.OUTPUT_ATTACHMENT : TextureUsage := 16

/-- The `wgpu::SwapChainDescriptor`: exactly the five fields the program sets. -/
structure SwapChainDescriptor where
  usage : TextureUsage
  format : TextureFormat
  width : Nat
  height : Nat
  present_mode : PresentMode
deriving DecidableEq, Repr

/-- A swap chain, identified by the surface and device it was created against
and the descriptor it was created from (`device.create_swap_chain`). -/
structure SwapChain where
  surface : Nat
  device : Nat
  desc : SwapChainDescriptor
deriving DecidableEq, Repr

/-- The `wgpu::Device::create_swap_chain(&surface, &desc)`. -/
def create_swap_chain (device : Nat) (surface : Nat)
    (desc : SwapChainDescriptor) : SwapChain :=
  { surface := surface, device := device, desc := desc }

/-- The `wgpu::Color` (components abstracted to naturals; only identity of the
clear color matters to the program). -/
structure Color where
  r : Nat
  g : Nat
  b : Nat
  a : Nat
deriving DecidableEq, Repr

/-- The `wgpu::Color::BLUE`. -/
def Color.BLUE : Color := ⟨0, 0, 1, 1⟩

/-- The `winit::event::ElementState`. -/
inductive ElementState where
  | Pressed
  | Released
deriving DecidableEq, Repr

/-- The `winit::event::VirtualKeyCode`: `Escape` is the only code the program
inspects; every other code is collapsed into `key n`. -/
inductive VirtualKeyCode where
  | Escape
  | key (n : Nat)
deriving DecidableEq, Repr

/-- The `winit::event::KeyboardInput`. -/
structure KeyboardInput where
  scancode : Nat
  state : ElementState
  virtual_keycode : Option VirtualKeyCode
deriving DecidableEq, Repr

/-- The `winit::event::WindowEvent`, with one constructor per arm of the match in
`Engine::input` / `main`; payloads the program never reads are simplified to
naturals. -/
inductive WindowEvent where
  | Resized (new_inner_size : PhysicalSize)
  | Moved (pos : Nat)
  | CloseRequested
  | Destroyed
  | DroppedFile (path : Nat)
  | HoveredFile (path : Nat)
  | HoveredFileCancelled
  | ReceivedCharacter (c : Char)
  | Focused (b : Bool)
  | KeyboardInput (device_id : Nat) (input : KeyboardInput) (is_synthetic : Bool)
  | ModifiersChanged (m : Nat)
  | CursorMoved (device_id : Nat) (position : Nat × Nat)
  | CursorEntered (device_id : Nat)
  | CursorLeft (device_id : Nat)
  | MouseWheel (device_id : Nat) (delta : Nat) (phase : Nat)
  | MouseInput (device_id : Nat) (state : ElementState) (button : Nat)
  | TouchpadPressure (device_id : Nat) (pressure : Nat) (stage : Nat)
  | AxisMotion (device_id : Nat) (axis : Nat) (value : Nat)
  | Touch (t : Nat)
  | ScaleFactorChanged (scale_factor : Nat) (new_inner_size : PhysicalSize)
  | ThemeChanged (t : Nat)
deriving DecidableEq, Repr

/-- Modelled from the spec: a paint job is "a batch of vertex/index draw data
plus a texture reference produced by the immediate-mode UI library for one
render target region". -/
structure PaintJob where
  geometry : List Nat
  textureId : Nat
deriving DecidableEq, Repr

/-- Modelled from the spec: the missing repository crate `egui_winit` computes
the frame's paint jobs as a deterministic function of the accumulated input
state (the declared widget tree is fixed per build; "any replacement UI must
still return a deterministic `UiFrameState` every call"); an idle UI — no input
accumulated yet — yields zero paint jobs (end-to-end scenario A). -/
def paintJobsOf : List WindowEvent → List PaintJob
  | [] => []
  | evs => [⟨[evs.length], 0⟩]

/-- Modelled from the spec: the missing repository crate `egui_winit`
(`egui_winit::Instance`).  It accumulates forwarded platform input, owns the
process-wide elapsed-time state advanced once per `update_time` call, and
after a `begin_frame`/`end_frame` pair exposes the frame's paint jobs and
texture atlas. -/
structure UiInstance where
  size : PhysicalSize
  scale_factor : Nat
  inputEvents : List WindowEvent
  elapsedTime : Nat
  paintJobsCur : List PaintJob
  textureVersion : Nat
deriving DecidableEq, Repr

/-- Modelled from the spec: `egui_winit::Instance::new(size, scale_factor)`. -/
def UiInstance.new (size : PhysicalSize) (scale_factor : Nat) : UiInstance :=
  { size := size, scale_factor := scale_factor, inputEvents := [],
    elapsedTime := 0, paintJobsCur := [], textureVersion := 0 }

/-- Modelled from the spec: `Instance::input` "forwards platform window events
into the UI library's input model; stateless pass-through … every event the
platform delivers is forwarded exactly once, in delivery order". -/
def UiInstance.input (u : UiInstance) (event : WindowEvent) : UiInstance :=
  { u with inputEvents := u.inputEvents ++ [event] }

/-- Modelled from the spec: `Instance::update_time` advances the process-wide
UI clock, "advanced exactly once per `compose` call". -/
def UiInstance.update_time (u : UiInstance) : UiInstance :=
  { u with elapsedTime := u.elapsedTime + 1 }

/-- Modelled from the spec: `Instance::begin_frame` starts a new
immediate-mode frame. -/
def UiInstance.begin_frame (u : UiInstance) : UiInstance := u

/-- Modelled from the spec: `Instance::end_frame` closes the frame and makes
the paint jobs — a deterministic function of the accumulated input state —
available for extraction. -/
def UiInstance.end_frame (u : UiInstance) : UiInstance :=
  { u with paintJobsCur := paintJobsOf u.inputEvents }

/-- Modelled from the spec: `Instance::paint_jobs()` extracts the last ended
frame's ordered paint jobs. -/
def UiInstance.paint_jobs (u : UiInstance) : List PaintJob :=
  u.paintJobsCur

/-- Modelled from the spec: `Instance::context().texture()`, the frame's
texture atlas. -/
def UiInstance.texture (u : UiInstance) : Nat :=
  u.textureVersion

/-- A recorded GPU command: a clear of the render target or one paint-job
draw. -/
inductive GpuCommand where
  | clear (c : Color)
  | draw (job : PaintJob)
deriving DecidableEq, Repr

/-- Modelled from the spec: the missing repository crate `egui_wgpu`
(`egui_wgpu::RenderPass`), holding the target format chosen at construction
and the uploaded buffer/texture data for the current frame. -/
structure RenderPass where
  format : TextureFormat
  buffers : List PaintJob
  texture : Nat
deriving DecidableEq, Repr

/-- Modelled from the spec: `egui_wgpu::RenderPass::new(&device, format)`. -/
def RenderPass.new (device : Nat) (format : TextureFormat) : RenderPass :=
  { format := format, buffers := [], texture := 0 }

/-- Modelled from the spec: `RenderPass::upload_buffers` "writes the frame's
… paint-job vertex/index data into GPU-visible buffers sized to fit the
current data". -/
def RenderPass.upload_buffers (rp : RenderPass) (device : Nat) (queue : Nat)
    (screen : Nat × Nat) (jobs : List PaintJob) : RenderPass :=
  { rp with buffers := jobs }

/-- Modelled from the spec: `RenderPass::upload_texture` writes the frame's
texture atlas into GPU-visible memory. -/
def RenderPass.upload_texture (rp : RenderPass) (device : Nat) (queue : Nat)
    (tex : Nat) : RenderPass :=
  { rp with texture := tex }

/-- Modelled from the spec: `RenderPass::encode(encoder, view, clear_color)`
records, into the one open command-buffer scope, a clear of the target to the
given color (when present) followed by one draw per uploaded paint job, in
upload order ("later jobs render on top of earlier ones"). -/
def RenderPass.encodeCmds (rp : RenderPass) (clear_color : Option Color) :
    List GpuCommand :=
  (match clear_color with
    | some c => [GpuCommand.clear c]
    | none => []) ++ rp.buffers.map GpuCommand.draw

/-- The `Engine` struct of `src/main.rs`: surface, device and queue are
opaque handles identified by naturals; `scale_factor` (an `f64` the program
only stores) is likewise an opaque handle. -/
structure Engine where
  size : PhysicalSize
  surface : Nat
  device : Nat
  queue : Nat
  swap_chain_desc : SwapChainDescriptor
  swap_chain : SwapChain
  ui_instance : UiInstance
  ui_render_pass : RenderPass
  scale_factor : Nat
deriving DecidableEq, Repr

/-- The `Engine::new`: the deterministic tail of construction, after the
adapter/device/queue/surface handles have been obtained from the backend.
Builds the swap-chain descriptor (OUTPUT_ATTACHMENT, Bgra8UnormSrgb, the
window's inner size, Fifo), creates the chain, and constructs the UI instance
and render pass. -/
def Engine.new (size : PhysicalSize) (surface : Nat) (device : Nat)
    (queue : Nat) (scale_factor : Nat) : Engine :=
  let swap_chain_desc : SwapChainDescriptor :=
    { usage := TextureUsage.OUTPUT_ATTACHMENT,
      format := TextureFormat.Bgra8UnormSrgb,
      width := size.width,
      height := size.height,
      present_mode := PresentMode.Fifo }
  { size := size,
    surface := surface,
    device := device,
    queue := queue,
    swap_chain_desc := swap_chain_desc,
    swap_chain := create_swap_chain device surface swap_chain_desc,
    ui_instance := UiInstance.new size scale_factor,
    ui_render_pass := RenderPass.new device swap_chain_desc.format,
    scale_factor := scale_factor }

/-- The `Engine::resize`: clones the new size into `self.size`, rewrites the
descriptor's width and height, and re-creates the swap chain against the
unchanged surface and device. -/
def Engine.resize (e : Engine) (new_size : PhysicalSize) : Engine :=
  let size := new_size
  let swap_chain_desc :=
    { e.swap_chain_desc with width := size.width, height := size.height }
  { e with
    size := size,
    swap_chain_desc := swap_chain_desc,
    swap_chain := create_swap_chain e.device e.surface swap_chain_desc }

/-- The `Engine::input`: forwards the event to `ui_instance.input`, then matches
on it — the `Resized` arm calls `resize`; every other arm is an explicit
no-op. -/
def Engine.input (e : Engine) (event : WindowEvent) : Engine :=
  let e := { e with ui_instance := e.ui_instance.input event }
  match event with
  | WindowEvent.Resized new_inner_size => e.resize new_inner_size
  | _ => e

/-- The `Engine::draw_ui`: `begin_frame`, declare the fixed widget tree (a central
panel with three buttons and a window with one button), `end_frame`. -/
def Engine.draw_ui (e : Engine) : Engine :=
  { e with ui_instance := e.ui_instance.begin_frame.end_frame }

/-- One observable step of a frame, used to trace what the engine does per
loop event. -/
inductive Action where
  | updateTime
  | compose
  | uploadBuffers
  | uploadTexture
  | acquireFrame (desc : SwapChainDescriptor)
  | encodeSubmit (buffer : List GpuCommand)
  | aborted
  | requestRedraw
deriving DecidableEq, Repr

/-- The `Engine::update`: advance the UI clock, compose the UI, upload the paint
buffers (screen size taken from `self.size`), upload the texture atlas.  The
returned trace records the steps in execution order. -/
def Engine.update (e : Engine) : Engine × List Action :=
  let e₁ := { e with ui_instance := e.ui_instance.update_time }
  let e₂ := e₁.draw_ui
  let rp₁ := e₂.ui_render_pass.upload_buffers e₂.device e₂.queue
    (e₂.size.width, e₂.size.height) e₂.ui_instance.paint_jobs
  let rp₂ := rp₁.upload_texture e₂.device e₂.queue e₂.ui_instance.texture
  ({ e₂ with ui_render_pass := rp₂ },
    [Action.updateTime, Action.compose, Action.uploadBuffers,
      Action.uploadTexture])

/-- Outcome of `swap_chain.get_current_frame()`: success, or a presentation
error (surface lost / chain outdated) — decided by the external backend, so
passed in as an input. -/
inductive AcquireResult where
  | ok
  | error
deriving DecidableEq, Repr

/-- Outcome of one `Engine::render` call. -/
inductive RenderOutcome where
  | submitted (buffer : List GpuCommand)
  | panicked
deriving DecidableEq, Repr

/-- The `Engine::render`: `get_current_frame().unwrap()` — on an acquisition
error the `unwrap` panics (process aborts); on success it creates one command
encoder, records the UI pass with clear color `wgpu::Color::BLUE`, finishes
the encoder and submits the single resulting command buffer to the queue. -/
def Engine.render (e : Engine) (acq : AcquireResult) :
    RenderOutcome × List Action :=
  match acq with
  | AcquireResult.error =>
    (RenderOutcome.panicked, [Action.acquireFrame e.swap_chain.desc, Action.aborted])
  | AcquireResult.ok =>
    let buffer := e.ui_render_pass.encodeCmds (some Color.BLUE)
    (RenderOutcome.submitted buffer,
      [Action.acquireFrame e.swap_chain.desc, Action.encodeSubmit buffer])

/-- The `winit::event::Event`, one constructor per arm of the match in `main`;
payloads the program never reads are simplified to naturals. -/
inductive Event where
  | NewEvents (cause : Nat)
  | WindowEvent (window_id : Nat) (event : EguiDemo.WindowEvent)
  | DeviceEvent (device_id : Nat) (event : Nat)
  | UserEvent (u : Nat)
  | Suspended
  | Resumed
  | MainEventsCleared
  | RedrawRequested (window_id : Nat)
  | RedrawEventsCleared
  | LoopDestroyed
deriving DecidableEq, Repr

/-- The `winit::event_loop::ControlFlow` (the two values this program uses:
the default polling state and `Exit`). -/
inductive ControlFlow where
  | Poll
  | Exit
deriving DecidableEq, Repr

/-- The state the event-loop closure of `main` threads between events: the
captured `engine`, the retained `control_flow` cell, and whether an
`unwrap` panic has aborted the process. -/
structure LoopState where
  engine : Engine
  control_flow : ControlFlow
  panicked : Bool
deriving DecidableEq, Repr

/-- The body of the `event_loop.run` closure in `main`: dispatch one platform
event.  Every `WindowEvent` is first fed to `engine.input`; `CloseRequested`
and an `Escape` key press set `ControlFlow::Exit`; `MainEventsCleared`
requests a redraw; `RedrawRequested` runs `engine.update()` then
`engine.render()` (the acquisition outcome `acq` is the backend's input to
that render).  All other arms are explicit no-ops.  Returns the new loop
state and the trace of engine actions. -/
def handleEvent (st : LoopState) (acq : AcquireResult) :
    Event → LoopState × List Action
  | Event.NewEvents _ => (st, [])
  | Event.WindowEvent _ event =>
    let engine' := st.engine.input event
    let cf :=
      match event with
      | WindowEvent.CloseRequested => ControlFlow.Exit
      | WindowEvent.KeyboardInput _ input _ =>
        match input.virtual_keycode, input.state with
        | some VirtualKeyCode.Escape, ElementState.Pressed => ControlFlow.Exit
        | _, _ => st.control_flow
      | _ => st.control_flow
    ({ st with engine := engine', control_flow := cf }, [])
  | Event.DeviceEvent _ _ => (st, [])
  | Event.UserEvent _ => (st, [])
  | Event.Suspended => (st, [])
  | Event.Resumed => (st, [])
  | Event.MainEventsCleared => (st, [Action.requestRedraw])
  | Event.RedrawRequested _ =>
    let (engine', tr₁) := st.engine.update
    let (outcome, tr₂) := engine'.render acq
    ({ st with
        engine := engine',
        panicked := st.panicked ||
          match outcome with
          | RenderOutcome.panicked => true
          | RenderOutcome.submitted _ => false },
      tr₁ ++ tr₂)
  | Event.RedrawEventsCleared => (st, [])
  | Event.LoopDestroyed => (st, [])

/-- The event loop itself (`winit::event_loop::EventLoop::run` semantics over
a finite observed event sequence): events are dispatched one at a time; once
`ControlFlow::Exit` is set the loop dispatches no further event, and a panic
aborts all further processing.  Each event comes paired with the backend's
acquisition outcome for any render it triggers. -/
def runLoop (st : LoopState) :
    List (Event × AcquireResult) → List Action × LoopState
  | [] => ([], st)
  | (ev, acq) :: rest =>
    if st.control_flow = ControlFlow.Exit then ([], st)
    else if st.panicked then ([], st)
    else
      let (st', tr) := handleEvent st acq ev
      let (tr', st'') := runLoop st' rest
      (tr ++ tr', st'')

/-- Modelled from the spec: the process exit status once the loop stops —
"normal termination on window close or Escape key yields success"; a Rust
panic aborts the process with a non-zero status. -/
def exitCode (st : LoopState) : Nat :=
  if st.panicked then 101 else 0

/-- The size most recently delivered by a `Resized` event, or the initial
size when none was delivered. -/
def lastResized (init : PhysicalSize) : List WindowEvent → PhysicalSize
  | [] => init
  | WindowEvent.Resized s :: rest => lastResized s rest
  | _ :: rest => lastResized init rest

/-- The sizes carried by the `Resized` events of a window-event sequence, in
order. -/
def resizeSizes : List WindowEvent → List PhysicalSize
  | [] => []
  | WindowEvent.Resized s :: rest => s :: resizeSizes rest
  | _ :: rest => resizeSizes rest

/-- Whether an action is part of the per-frame pipeline (time advance,
composition, uploads, acquisition, encode/submit, panic) as opposed to loop
plumbing (`requestRedraw`). -/
def isFrameStep : Action → Bool
  | Action.requestRedraw => false
  | _ => true

/-- Whether a loop event is a `RedrawRequested` event. -/
def isRedraw : Event → Bool
  | Event.RedrawRequested _ => true
  | _ => false

/-- The exact trace a redraw emits from state `st` under acquisition outcome
`acq`: the update block, then acquisition, then either one submit or the
panic. -/
def frameBlockOf (st : LoopState) (acq : AcquireResult) : List Action :=
  [Action.updateTime, Action.compose, Action.uploadBuffers,
    Action.uploadTexture] ++
  (match acq with
    | AcquireResult.ok =>
      [Action.acquireFrame st.engine.swap_chain.desc,
        Action.encodeSubmit
          ((st.engine.update).1.ui_render_pass.encodeCmds (some Color.BLUE))]
    | AcquireResult.error =>
      [Action.acquireFrame st.engine.swap_chain.desc, Action.aborted])

/-- The loop state at entry to `event_loop.run`, for an arbitrary freshly
constructed engine. -/
def initState (init : PhysicalSize) (su d q sf : Nat) : LoopState :=
  { engine := Engine.new init su d q sf,
    control_flow := ControlFlow.Poll,
    panicked := false }

/-- The engine as `main` constructs it: an 800×600 window (per
`with_inner_size`), with concrete backend handles. -/
def engine0 : Engine := Engine.new ⟨800, 600⟩ 0 1 2 1

/-- The loop state at entry to `event_loop.run`. -/
def state0 : LoopState :=
  { engine := engine0, control_flow := ControlFlow.Poll, panicked := false }

/-- The engine after a mid-run resize event to 400×300 (end-to-end
scenario B). -/
def engineB : Engine := engine0.input (WindowEvent.Resized ⟨400, 300⟩)

/-- The engine after a resize event to width 0 (a minimized window). -/
def engineZ : Engine := engine0.input (WindowEvent.Resized ⟨0, 600⟩)

/-- The loop state holding the zero-width engine. -/
def stateZ : LoopState :=
  { engine := engineZ, control_flow := ControlFlow.Poll, panicked := false }

/-! ### Helper lemmas (shared across claims) -/

theorem update_preserves_size (e : Engine) : (e.update).1.size = e.size := rfl

theorem update_preserves_desc (e : Engine) :
    (e.update).1.swap_chain_desc = e.swap_chain_desc := rfl

theorem update_preserves_chain (e : Engine) :
    (e.update).1.swap_chain = e.swap_chain := rfl

/-- The width/height of the descriptor and of the stored size after one
`Engine::input`, as functions of the event. -/
theorem input_size_eq (e : Engine) (ev : WindowEvent) :
    (e.input ev).size =
      (match ev with
        | WindowEvent.Resized s => s
        | _ => e.size) := by
  cases ev <;> rfl

theorem input_desc_width (e : Engine) (ev : WindowEvent) :
    (e.input ev).swap_chain_desc.width =
      (match ev with
        | WindowEvent.Resized s => s.width
        | _ => e.swap_chain_desc.width) := by
  cases ev <;> rfl

theorem input_desc_height (e : Engine) (ev : WindowEvent) :
    (e.input ev).swap_chain_desc.height =
      (match ev with
        | WindowEvent.Resized s => s.height
        | _ => e.swap_chain_desc.height) := by
  cases ev <;> rfl

/-- The `lastResized` unfolded one event at a time. -/
theorem lastResized_cons (init : PhysicalSize) (ev : WindowEvent)
    (rest : List WindowEvent) :
    lastResized init (ev :: rest) =
      lastResized
        (match ev with
          | WindowEvent.Resized s => s
          | _ => init) rest := by
  cases ev <;> rfl

/-- The size a window-event fold settles on is the last delivered resize
payload (or the starting size). -/
theorem foldl_input_size (evs : List WindowEvent) :
    ∀ e : Engine, (evs.foldl Engine.input e).size = lastResized e.size evs := by
  induction evs with
  | nil => intro e; rfl
  | cons ev rest ih =>
    intro e
    rw [List.foldl_cons, ih, lastResized_cons, input_size_eq]

/-- A window-event fold keeps the descriptor's width equal to the stored
size's width. -/
theorem foldl_input_desc_width (evs : List WindowEvent) :
    ∀ e : Engine, e.swap_chain_desc.width = e.size.width →
      (evs.foldl Engine.input e).swap_chain_desc.width
        = (evs.foldl Engine.input e).size.width := by
  induction evs with
  | nil => intro e h; exact h
  | cons ev rest ih =>
    intro e h
    rw [List.foldl_cons]
    apply ih
    rw [input_desc_width, input_size_eq]
    cases ev <;> simp [h]

/-- A window-event fold keeps the descriptor's height equal to the stored
size's height. -/
theorem foldl_input_desc_height (evs : List WindowEvent) :
    ∀ e : Engine, e.swap_chain_desc.height = e.size.height →
      (evs.foldl Engine.input e).swap_chain_desc.height
        = (evs.foldl Engine.input e).size.height := by
  induction evs with
  | nil => intro e h; exact h
  | cons ev rest ih =>
    intro e h
    rw [List.foldl_cons]
    apply ih
    rw [input_desc_height, input_size_eq]
    cases ev <;> simp [h]

/-- The `resizeSizes` unfolded one event at a time. -/
theorem resizeSizes_cons (ev : WindowEvent) (rest : List WindowEvent) :
    resizeSizes (ev :: rest) =
      (match ev with
        | WindowEvent.Resized s => [s]
        | _ => []) ++ resizeSizes rest := by
  cases ev <;> rfl

/-- The settled size is either the starting size or one of the delivered
resize payloads. -/
theorem lastResized_mem (evs : List WindowEvent) :
    ∀ init : PhysicalSize,
      lastResized init evs = init ∨ lastResized init evs ∈ resizeSizes evs := by
  induction evs with
  | nil => intro init; exact Or.inl rfl
  | cons ev rest ih =>
    intro init
    rw [lastResized_cons, resizeSizes_cons]
    cases ev
    case Resized s =>
      rcases ih s with h | h
      · exact Or.inr (by rw [h]; exact List.mem_cons_self _ _)
      · exact Or.inr (List.mem_cons_of_mem _ h)
    all_goals {
      rcases ih init with h | h
      · exact Or.inl h
      · exact Or.inr (by simpa using h) }

/-- The descriptor fields fixed at construction: usage, color format,
present mode. -/
def descConsts (e : Engine) : TextureUsage × TextureFormat × PresentMode :=
  (e.swap_chain_desc.usage, e.swap_chain_desc.format,
    e.swap_chain_desc.present_mode)

theorem descConsts_resize (e : Engine) (s : PhysicalSize) :
    descConsts (e.resize s) = descConsts e := rfl

theorem descConsts_input (e : Engine) (ev : WindowEvent) :
    descConsts (e.input ev) = descConsts e := by
  cases ev <;> rfl

theorem descConsts_update (e : Engine) :
    descConsts (e.update).1 = descConsts e := rfl

theorem descConsts_handleEvent (st : LoopState) (acq : AcquireResult)
    (ev : Event) :
    descConsts (handleEvent st acq ev).1.engine = descConsts st.engine := by
  cases ev with
  | WindowEvent wid we => exact descConsts_input st.engine we
  | RedrawRequested w => cases acq <;> rfl
  | _ => rfl

theorem descConsts_runLoop (evs : List (Event × AcquireResult)) :
    ∀ st : LoopState,
      descConsts (runLoop st evs).2.engine = descConsts st.engine := by
  induction evs with
  | nil => intro st; rfl
  | cons p rest ih =>
    intro st
    rw [runLoop]
    by_cases hcf : st.control_flow = ControlFlow.Exit
    · rw [if_pos hcf]
    · rw [if_neg hcf]
      by_cases hp : st.panicked
      · rw [if_pos hp]
      · rw [if_neg hp]
        show descConsts (runLoop (handleEvent st p.2 p.1).1 rest).2.engine
          = descConsts st.engine
        rw [ih, descConsts_handleEvent]

/-! ### Claim theorems -/

/-- C4: `Engine::input` on a `Resized` event rewrites the descriptor's width
and height to the new size and synchronously reconstructs the swap chain
against the unchanged surface and device, before any subsequent frame
acquisition (the next render acquires from the freshly built chain, whose
descriptor carries the new size); after delivering a resize to 400×300 to
the 800×600 start state, the chain's descriptor reports 400×300. -/
theorem resize_applies_before_next_acquire :
    (∀ (e : Engine) (s : PhysicalSize),
      (e.input (WindowEvent.Resized s)).swap_chain_desc
          = { e.swap_chain_desc with width := s.width, height := s.height } ∧
        (e.input (WindowEvent.Resized s)).swap_chain
          = create_swap_chain e.device e.surface
              (e.input (WindowEvent.Resized s)).swap_chain_desc ∧
        (e.input (WindowEvent.Resized s)).surface = e.surface ∧
        (e.input (WindowEvent.Resized s)).device = e.device ∧
        ∀ acq : AcquireResult,
          ((e.input (WindowEvent.Resized s)).render acq).2.head?
            = some (Action.acquireFrame
                (e.input (WindowEvent.Resized s)).swap_chain_desc)) ∧
      engineB.swap_chain.desc.width = 400 ∧
      engineB.swap_chain.desc.height = 300 ∧
      engineB.swap_chain.desc.width ≠ 800 := by
  refine ⟨fun e s => ⟨rfl, rfl, rfl, rfl, fun acq => ?_⟩, rfl, rfl, by decide⟩
  cases acq <;> rfl

/-- C5: `Engine::render` (on successful acquisition) acquires the frame from
the current chain, records into exactly one command buffer a clear to the
fixed background color `wgpu::Color::BLUE` followed by one draw per uploaded
paint job in composer order, and submits that single buffer; the uploaded
buffers are exactly the paint jobs the composer returned, in order; on the
first redraw from the 800×600 start state with an idle UI, the one submitted
buffer clears to blue and draws zero paint jobs. -/
theorem render_submits_one_clear_then_draws :
    (∀ e : Engine,
      e.render AcquireResult.ok =
        (RenderOutcome.submitted
            (GpuCommand.clear Color.BLUE ::
              e.ui_render_pass.buffers.map GpuCommand.draw),
          [Action.acquireFrame e.swap_chain.desc,
            Action.encodeSubmit
              (GpuCommand.clear Color.BLUE ::
                e.ui_render_pass.buffers.map GpuCommand.draw)])) ∧
      (∀ e : Engine,
        (e.update).1.ui_render_pass.buffers = (e.update).1.ui_instance.paint_jobs) ∧
      (handleEvent state0 AcquireResult.ok (Event.RedrawRequested 0)).2 =
        [Action.updateTime, Action.compose, Action.uploadBuffers,
          Action.uploadTexture,
          Action.acquireFrame engine0.swap_chain.desc,
          Action.encodeSubmit [GpuCommand.clear Color.BLUE]] :=
  ⟨fun e => rfl, fun e => rfl, rfl⟩

/-- C7: a keyboard event carrying the Escape virtual keycode in the
`Pressed` state makes the loop set `ControlFlow::Exit` — the same loop
control effect as a close event — while the same event in the `Released`
state leaves the control flow unchanged. -/
theorem escape_press_exits_release_noop (st : LoopState)
    (acq : AcquireResult) (wid did scan : Nat) (syn : Bool) :
    (handleEvent st acq (Event.WindowEvent wid
        (WindowEvent.KeyboardInput did
          ⟨scan, ElementState.Pressed, some VirtualKeyCode.Escape⟩
          syn))).1.control_flow = ControlFlow.Exit ∧
      (handleEvent st acq (Event.WindowEvent wid
          (WindowEvent.KeyboardInput did
            ⟨scan, ElementState.Pressed, some VirtualKeyCode.Escape⟩
            syn))).1.control_flow
        = (handleEvent st acq
            (Event.WindowEvent wid WindowEvent.CloseRequested)).1.control_flow ∧
      (handleEvent st acq (Event.WindowEvent wid
          (WindowEvent.KeyboardInput did
            ⟨scan, ElementState.Released, some VirtualKeyCode.Escape⟩
            syn))).1.control_flow = st.control_flow :=
  ⟨rfl, rfl, rfl⟩

/-- C9: two consecutive `Engine::update` composition passes with no
intervening input event yield identical paint-job geometry (content
idempotence), while the UI elapsed-time observed by the first call is ≤ that
observed by the second (monotonically non-decreasing). -/
theorem compose_idempotent_time_monotone (e : Engine) :
    ((e.update).1.update).1.ui_instance.paintJobsCur
        = (e.update).1.ui_instance.paintJobsCur ∧
      (e.update).1.ui_instance.elapsedTime
        ≤ ((e.update).1.update).1.ui_instance.elapsedTime :=
  ⟨rfl, Nat.le_succ _⟩

/-- C1 (counterexample): at the concrete 800×600 start state, a single
presentation error on frame acquisition makes `Engine::render` panic — the
process aborts on the first failure, with no chain re-creation and no retry,
contrary to the claimed recover-then-retry-once behaviour. -/
theorem render_error_aborts_first_failure :
    (engine0.render AcquireResult.error).1 = RenderOutcome.panicked ∧
      (engine0.render AcquireResult.error).2 =
        [Action.acquireFrame engine0.swap_chain.desc, Action.aborted] :=
  ⟨rfl, rfl⟩

/-- C1 (amended): if frame acquisition fails with a presentation error, the
render step panics immediately — `get_current_frame().unwrap()` aborts the
process on the very first failure; no chain re-creation and no retry occur,
and a panicked loop state processes no further events. -/
theorem render_error_panics :
    (∀ e : Engine,
      e.render AcquireResult.error =
        (RenderOutcome.panicked,
          [Action.acquireFrame e.swap_chain.desc, Action.aborted])) ∧
      ∀ (st : LoopState) (rest : List (Event × AcquireResult)),
        runLoop { st with panicked := true } rest
          = ([], { st with panicked := true }) := by
  refine ⟨fun e => rfl, fun st rest => ?_⟩
  cases rest with
  | nil => rfl
  | cons p t =>
    rw [runLoop]
    by_cases hcf : ({ st with panicked := true } : LoopState).control_flow
        = ControlFlow.Exit
    · rw [if_pos hcf]
    · rw [if_neg hcf, if_pos rfl]

/-- C2 (counterexample): after a resize event to width 0, a redraw does not
skip the render step — the full frame pipeline runs, frame acquisition
against the zero-sized chain is still attempted, and an acquisition failure
there panics the renderer (the loop state records the crash). -/
theorem zero_size_redraw_crashes :
    engineZ.size.width = 0 ∧
      (handleEvent stateZ AcquireResult.error (Event.RedrawRequested 0)).2 =
        [Action.updateTime, Action.compose, Action.uploadBuffers,
          Action.uploadTexture,
          Action.acquireFrame engineZ.swap_chain.desc, Action.aborted] ∧
      (handleEvent stateZ AcquireResult.error
          (Event.RedrawRequested 0)).1.panicked = true :=
  ⟨rfl, rfl, rfl⟩

/-- C2 (amended): the render step is never skipped — whatever the stored
window size (in particular width 0 or height 0), a redraw still runs the
update pipeline and attempts frame acquisition against the current chain,
and if acquisition fails there the renderer panics. -/
theorem zero_size_redraw_not_skipped (st : LoopState) (acq : AcquireResult)
    (w : Nat)
    (h : st.engine.size.width = 0 ∨ st.engine.size.height = 0) :
    (handleEvent st acq (Event.RedrawRequested w)).2[4]?
        = some (Action.acquireFrame st.engine.swap_chain.desc) ∧
      (acq = AcquireResult.error →
        (handleEvent st acq (Event.RedrawRequested w)).1.panicked = true) := by
  refine ⟨?_, ?_⟩
  · cases acq <;> rfl
  · intro hacq
    subst hacq
    show (st.panicked || true) = true
    exact Bool.or_true _

/-- C2 (witness for the amended theorem). -/
theorem zero_size_redraw_not_skipped_witness :
    (stateZ.engine.size.width = 0 ∨ stateZ.engine.size.height = 0) ∧
      ((handleEvent stateZ AcquireResult.error (Event.RedrawRequested 0)).2[4]?
          = some (Action.acquireFrame stateZ.engine.swap_chain.desc) ∧
        (AcquireResult.error = AcquireResult.error →
          (handleEvent stateZ AcquireResult.error
              (Event.RedrawRequested 0)).1.panicked = true)) :=
  ⟨Or.inl rfl,
    zero_size_redraw_not_skipped stateZ AcquireResult.error 0 (Or.inl rfl)⟩

/-- C8: a `RedrawRequested` event runs exactly one frame tick in the fixed
order time-advance, compose, buffer upload, texture upload, frame
acquisition, then encode-and-submit (or the panic on failed acquisition);
compose and the time advance each occur exactly once per redraw; and no
other event kind emits any frame-pipeline step, so the tick is never
interleaved with other frame triggers. -/
theorem redraw_runs_frame_pipeline_once (st : LoopState)
    (acq : AcquireResult) (ev : Event) (w : Nat) :
    (handleEvent st acq (Event.RedrawRequested w)).2 = frameBlockOf st acq ∧
      (handleEvent st acq (Event.RedrawRequested w)).2.count Action.compose = 1 ∧
      (handleEvent st acq (Event.RedrawRequested w)).2.count Action.updateTime = 1 ∧
      (handleEvent st acq ev).2.filter isFrameStep
        = (if isRedraw ev = true then frameBlockOf st acq else []) := by
  refine ⟨?_, ?_, ?_, ?_⟩
  · cases acq <;> rfl
  · cases acq <;> rfl
  · cases acq <;> rfl
  · cases ev <;> cases acq <;> rfl

/-- C6: once a close event is delivered, the loop closure sets
`ControlFlow::Exit`; from that state the loop dispatches nothing further —
no render (`encode_and_submit`) and no device or chain operation can occur,
the state is final, and the process exit status is success (0). -/
theorem close_event_terminates_loop (st : LoopState) (acq : AcquireResult)
    (wid : Nat) (rest : List (Event × AcquireResult))
    (h : st.panicked = false) :
    (handleEvent st acq
        (Event.WindowEvent wid WindowEvent.CloseRequested)).1.control_flow
        = ControlFlow.Exit ∧
      runLoop (handleEvent st acq
          (Event.WindowEvent wid WindowEvent.CloseRequested)).1 rest
        = ([], (handleEvent st acq
            (Event.WindowEvent wid WindowEvent.CloseRequested)).1) ∧
      exitCode (handleEvent st acq
          (Event.WindowEvent wid WindowEvent.CloseRequested)).1 = 0 := by
  refine ⟨rfl, ?_, ?_⟩
  · cases rest with
    | nil => rfl
    | cons p t =>
      rw [runLoop, if_pos (show (handleEvent st acq
        (Event.WindowEvent wid WindowEvent.CloseRequested)).1.control_flow
          = ControlFlow.Exit from rfl)]
  · show (if st.panicked then 101 else 0) = 0
    rw [h, if_neg (by simp)]

/-- C6 (witness). -/
theorem close_event_terminates_loop_witness :
    state0.panicked = false ∧
      ((handleEvent state0 AcquireResult.ok
          (Event.WindowEvent 0 WindowEvent.CloseRequested)).1.control_flow
          = ControlFlow.Exit ∧
        runLoop (handleEvent state0 AcquireResult.ok
            (Event.WindowEvent 0 WindowEvent.CloseRequested)).1
            [(Event.RedrawRequested 0, AcquireResult.ok)]
          = ([], (handleEvent state0 AcquireResult.ok
              (Event.WindowEvent 0 WindowEvent.CloseRequested)).1) ∧
        exitCode (handleEvent state0 AcquireResult.ok
            (Event.WindowEvent 0 WindowEvent.CloseRequested)).1 = 0) :=
  ⟨rfl, close_event_terminates_loop state0 AcquireResult.ok 0
    [(Event.RedrawRequested 0, AcquireResult.ok)] rfl⟩

/-- C3 (counterexample): the stated invariant "descriptor width and height
are always > 0" is not preserved by the engine's operations — the 800×600
start state satisfies it, but delivering a resize event with width 0 (a
minimized window) produces descriptor width 0. -/
theorem descriptor_positivity_violated :
    0 < engine0.swap_chain_desc.width ∧
      engineZ.swap_chain_desc.width = 0 :=
  ⟨by decide, rfl⟩

/-- C3 (amended): after any sequence of window events, the descriptor's
width and height equal the stored size, which is exactly the most recently
delivered resize payload (or the initial size — no stale intermediate
descriptor survives); `update` touches neither; and the dimensions are > 0
provided the initial size and every delivered resize payload are positive
(positivity is not unconditional). -/
theorem descriptor_tracks_last_size (init : PhysicalSize)
    (su d q sf : Nat) (evs : List WindowEvent)
    (hw : 0 < init.width) (hh : 0 < init.height)
    (hall : ∀ s ∈ resizeSizes evs, 0 < s.width ∧ 0 < s.height) :
    (evs.foldl Engine.input (Engine.new init su d q sf)).swap_chain_desc.width
        = (evs.foldl Engine.input (Engine.new init su d q sf)).size.width ∧
      (evs.foldl Engine.input (Engine.new init su d q sf)).swap_chain_desc.height
        = (evs.foldl Engine.input (Engine.new init su d q sf)).size.height ∧
      (evs.foldl Engine.input (Engine.new init su d q sf)).size
        = lastResized init evs ∧
      0 < (evs.foldl Engine.input (Engine.new init su d q sf)).swap_chain_desc.width ∧
      0 < (evs.foldl Engine.input (Engine.new init su d q sf)).swap_chain_desc.height ∧
      ∀ e : Engine,
        (e.update).1.size = e.size ∧
          (e.update).1.swap_chain_desc = e.swap_chain_desc := by
  have h1 := foldl_input_desc_width evs (Engine.new init su d q sf) rfl
  have h2 := foldl_input_desc_height evs (Engine.new init su d q sf) rfl
  have h3 := foldl_input_size evs (Engine.new init su d q sf)
  have hsize : (evs.foldl Engine.input (Engine.new init su d q sf)).size
      = lastResized init evs := h3
  have hpos : 0 < (lastResized init evs).width ∧
      0 < (lastResized init evs).height := by
    rcases lastResized_mem evs init with h | h
    · rw [h]; exact ⟨hw, hh⟩
    · exact hall _ h
  refine ⟨h1, h2, hsize, ?_, ?_, fun e => ⟨rfl, rfl⟩⟩
  · rw [h1, hsize]; exact hpos.1
  · rw [h2, hsize]; exact hpos.2

/-- C3 (witness for the amended theorem). -/
theorem descriptor_tracks_last_size_witness :
    0 < (⟨800, 600⟩ : PhysicalSize).width ∧
      0 < (⟨800, 600⟩ : PhysicalSize).height ∧
      (∀ s ∈ resizeSizes
          [WindowEvent.Resized ⟨400, 300⟩, WindowEvent.CloseRequested],
        0 < s.width ∧ 0 < s.height) ∧
      (([WindowEvent.Resized ⟨400, 300⟩,
            WindowEvent.CloseRequested].foldl Engine.input
            (Engine.new ⟨800, 600⟩ 0 1 2 1)).swap_chain_desc.width
          = ([WindowEvent.Resized ⟨400, 300⟩,
              WindowEvent.CloseRequested].foldl Engine.input
              (Engine.new ⟨800, 600⟩ 0 1 2 1)).size.width ∧
        ([WindowEvent.Resized ⟨400, 300⟩,
              WindowEvent.CloseRequested].foldl Engine.input
            (Engine.new ⟨800, 600⟩ 0 1 2 1)).swap_chain_desc.height
          = ([WindowEvent.Resized ⟨400, 300⟩,
              WindowEvent.CloseRequested].foldl Engine.input
              (Engine.new ⟨800, 600⟩ 0 1 2 1)).size.height ∧
        ([WindowEvent.Resized ⟨400, 300⟩,
              WindowEvent.CloseRequested].foldl Engine.input
            (Engine.new ⟨800, 600⟩ 0 1 2 1)).size
          = lastResized ⟨800, 600⟩
              [WindowEvent.Resized ⟨400, 300⟩, WindowEvent.CloseRequested] ∧
        0 < ([WindowEvent.Resized ⟨400, 300⟩,
              WindowEvent.CloseRequested].foldl Engine.input
            (Engine.new ⟨800, 600⟩ 0 1 2 1)).swap_chain_desc.width ∧
        0 < ([WindowEvent.Resized ⟨400, 300⟩,
              WindowEvent.CloseRequested].foldl Engine.input
            (Engine.new ⟨800, 600⟩ 0 1 2 1)).swap_chain_desc.height ∧
        ∀ e : Engine,
          (e.update).1.size = e.size ∧
            (e.update).1.swap_chain_desc = e.swap_chain_desc) :=
  ⟨by decide, by decide, by decide,
    descriptor_tracks_last_size ⟨800, 600⟩ 0 1 2 1
      [WindowEvent.Resized ⟨400, 300⟩, WindowEvent.CloseRequested]
      (by decide) (by decide) (by decide)⟩

/-- C10: `Engine::resize` changes only the stored size, the descriptor's
width/height and the swap chain — surface, device, queue, UI instance, UI
render pass and scale factor are untouched and the descriptor's usage,
format and present mode are unchanged; moreover, over any observed run of
the event loop from a freshly constructed engine, usage stays
`OUTPUT_ATTACHMENT`, the format stays `Bgra8UnormSrgb` and the present mode
stays `Fifo` — the values set at construction. -/
theorem resize_frame_condition :
    (∀ (e : Engine) (s : PhysicalSize),
      (e.resize s).surface = e.surface ∧
        (e.resize s).device = e.device ∧
        (e.resize s).queue = e.queue ∧
        (e.resize s).ui_instance = e.ui_instance ∧
        (e.resize s).ui_render_pass = e.ui_render_pass ∧
        (e.resize s).scale_factor = e.scale_factor ∧
        (e.resize s).swap_chain_desc.usage = e.swap_chain_desc.usage ∧
        (e.resize s).swap_chain_desc.format = e.swap_chain_desc.format ∧
        (e.resize s).swap_chain_desc.present_mode
          = e.swap_chain_desc.present_mode) ∧
      ∀ (init : PhysicalSize) (su d q sf : Nat)
        (evs : List (Event × AcquireResult)),
        (runLoop (initState init su d q sf) evs).2.engine.swap_chain_desc.usage
            = TextureUsage.OUTPUT_ATTACHMENT ∧
          (runLoop (initState init su d q sf) evs).2.engine.swap_chain_desc.format
            = TextureFormat.Bgra8UnormSrgb ∧
          (runLoop (initState init su d q sf) evs).2.engine.swap_chain_desc.present_mode
            = PresentMode.Fifo := by
  refine ⟨fun e s => ⟨rfl, rfl, rfl, rfl, rfl, rfl, rfl, rfl, rfl⟩, ?_⟩
  intro init su d q sf evs
  have h := descConsts_runLoop evs (initState init su d q sf)
  have h0 : descConsts (initState init su d q sf).engine
      = (TextureUsage.OUTPUT_ATTACHMENT,
          TextureFormat.Bgra8UnormSrgb, PresentMode.Fifo) := rfl
  rw [h0] at h
  exact ⟨congrArg Prod.fst h, congrArg (fun x => x.2.1) h,
    congrArg (fun x => x.2.2) h⟩

end EguiDemo
